import Mathlib

set_option maxRecDepth 100000

/-!
Shallow embedding of the AlphaWolf-Bot/server repository (JavaScript) in Lean 4.

The development mirrors:
- `src/src/services/telegramBot.js` : `verifyTelegramData` (Telegram Web App
  init-data HMAC-SHA256 verification), including a byte-level model of the
  Node `crypto` HMAC-SHA256 primitive, of `URLSearchParams` parsing and of
  `JSON.parse`;
- `src/src/index.js` : the `telegramAuth` middleware (verify, then get-or-create
  the Supabase user row, then proceed);
- `src/unnamed/part_001` : the progress router (GET /progress, POST /experience,
  POST /sync-telegram, GET /achievements);
- `src/unnamed/part_000` : `adService.getAdMetrics`.

The `UserLevel` mongoose model (its `addExperience` / `updateStreak` methods and
schema defaults) and `telegramService.handleLevelUp` are referenced by the
router but their files are not part of the sources; they are modelled from the
spec where needed, as marked in the doc comments below.
-/

/-! ## SHA-256 over byte lists (model of Node crypto's sha256)

Bytes are `Nat` values below 256, 32-bit words are `Nat` values reduced
modulo `2 ^ 32` at every arithmetic step.  This models the digest computed by
`crypto.createHmac('sha256', ...)` in `telegramBot.js`. -/

/-- Reduce a `Nat` to a 32-bit word. -/
def w32 (x : Nat) : Nat := x % 4294967296

/-- Right rotation of a 32-bit word by `n` bits. -/
def rotr32 (n x : Nat) : Nat := w32 ((x >>> n) ||| (x <<< (32 - n)))

/-- SHA-256 round constants. -/
def sha256K : List Nat :=
  [1116352408, 1899447441, 3049323471, 3921009573, 961987163,
   1508970993, 2453635748, 2870763221, 3624381080, 310598401,
   607225278, 1426881987, 1925078388, 2162078206, 2614888103,
   3248222580, 3835390401, 4022224774, 264347078, 604807628,
   770255983, 1249150122, 1555081692, 1996064986, 2554220882,
   2821834349, 2952996808, 3210313671, 3336571891, 3584528711,
   113926993, 338241895, 666307205, 773529912, 1294757372,
   1396182291, 1695183700, 1986661051, 2177026350, 2456956037,
   2730485921, 2820302411, 3259730800, 3345764771, 3516065817,
   3600352804, 4094571909, 275423344, 430227734, 506948616,
   659060556, 883997877, 958139571, 1322822218, 1537002063,
   1747873779, 1955562222, 2024104815, 2227730452, 2361852424,
   2428436474, 2756734187, 3204031479, 3329325298]

/-- SHA-256 initial hash state. -/
def sha256InitH : List Nat :=
  [1779033703, 3144134277, 1013904242, 2773480762,
   1359893119, 2600822924, 528734635, 1541459225]

/-- The `n` big-endian bytes of `v`. -/
def beBytes : Nat → Nat → List Nat
  | 0, _ => []
  | n + 1, v => beBytes n (v >>> 8) ++ [v &&& 0xff]

/-- Pack bytes into 32-bit big-endian words (any trailing partial group is
dropped; the input is always a multiple of 4 bytes here). -/
def bytesToWords : List Nat → List Nat
  | b0 :: b1 :: b2 :: b3 :: rest =>
      ((((b0 <<< 8) ||| b1) <<< 16) ||| ((b2 <<< 8) ||| b3)) :: bytesToWords rest
  | _ => []

/-- SHA-256 message padding: append `0x80`, zero bytes up to 56 mod 64, then
the 64-bit big-endian bit length. -/
def sha256Pad (msg : List Nat) : List Nat :=
  let padZeros := (119 - msg.length % 64) % 64
  msg ++ [0x80] ++ List.replicate padZeros 0 ++ beBytes 8 (msg.length * 8)

def sigma0 (x : Nat) : Nat := (rotr32 7 x) ^^^ (rotr32 18 x) ^^^ (x >>> 3)

def sigma1 (x : Nat) : Nat := (rotr32 17 x) ^^^ (rotr32 19 x) ^^^ (x >>> 10)

def bigS0 (x : Nat) : Nat := (rotr32 2 x) ^^^ (rotr32 13 x) ^^^ (rotr32 22 x)

def bigS1 (x : Nat) : Nat := (rotr32 6 x) ^^^ (rotr32 11 x) ^^^ (rotr32 25 x)

def chFn (x y z : Nat) : Nat := (x &&& y) ^^^ ((x ^^^ 0xffffffff) &&& z)

def majFn (x y z : Nat) : Nat := (x &&& y) ^^^ (x &&& z) ^^^ (y &&& z)

/-- Extend the schedule words, keeping the accumulator most-recent-first. -/
def sha256ScheduleRev (acc : List Nat) : Nat → List Nat
  | 0 => acc
  | n + 1 =>
      sha256ScheduleRev
        (w32 (sigma1 (acc.getD 1 0) + acc.getD 6 0 +
              sigma0 (acc.getD 14 0) + acc.getD 15 0) :: acc) n

/-- Extend the 16 block words to the 64-word message schedule. -/
def sha256Schedule (w16 : List Nat) : List Nat :=
  (sha256ScheduleRev w16.reverse 48).reverse

/-- Working state of the compression function. -/
structure Sha256State where
  a : Nat
  b : Nat
  c : Nat
  d : Nat
  e : Nat
  f : Nat
  g : Nat
  h : Nat

/-- One round of the SHA-256 compression function. -/
def sha256Round (st : Sha256State) (k w : Nat) : Sha256State :=
  let t1 := w32 (st.h + bigS1 st.e + chFn st.e st.f st.g + k + w)
  let t2 := w32 (bigS0 st.a + majFn st.a st.b st.c)
  ⟨w32 (t1 + t2), st.a, st.b, st.c, w32 (st.d + t1), st.e, st.f, st.g⟩

/-- Compress one 64-byte block into the hash state (8 words). -/
def sha256Compress (hs : List Nat) (block : List Nat) : List Nat :=
  let ws := sha256Schedule (bytesToWords block)
  let init : Sha256State :=
    ⟨hs.getD 0 0, hs.getD 1 0, hs.getD 2 0, hs.getD 3 0,
     hs.getD 4 0, hs.getD 5 0, hs.getD 6 0, hs.getD 7 0⟩
  let fin := (sha256K.zip ws).foldl
    (fun st kw => sha256Round st kw.1 kw.2) init
  [w32 (hs.getD 0 0 + fin.a), w32 (hs.getD 1 0 + fin.b),
   w32 (hs.getD 2 0 + fin.c), w32 (hs.getD 3 0 + fin.d),
   w32 (hs.getD 4 0 + fin.e), w32 (hs.getD 5 0 + fin.f),
   w32 (hs.getD 6 0 + fin.g), w32 (hs.getD 7 0 + fin.h)]

/-- Fold the compression function over the padded message 64 bytes at a time;
the first argument counts the remaining blocks (structural recursion, so that
the kernel can evaluate digests). -/
def sha256Blocks : Nat → List Nat → List Nat → List Nat
  | 0, hs, _ => hs
  | n + 1, hs, l => sha256Blocks n (sha256Compress hs (l.take 64)) (l.drop 64)

/-- SHA-256 of a byte list, as 32 bytes. -/
def sha256 (msg : List Nat) : List Nat :=
  let padded := sha256Pad msg
  (sha256Blocks (padded.length / 64) sha256InitH padded).foldr
    (fun w acc => beBytes 4 w ++ acc) []

/-- HMAC-SHA256 (model of Node `crypto.createHmac('sha256', key).update(msg)`),
keyed with `key` over message `msg`, as 32 bytes. -/
def hmacSha256 (key msg : List Nat) : List Nat :=
  let k0 := if 64 < key.length then sha256 key else key
  let kp := k0 ++ List.replicate (64 - k0.length) 0
  sha256 ((kp.map (· ^^^ 0x5c)) ++ sha256 ((kp.map (· ^^^ 0x36)) ++ msg))

/-- UTF-8 encoding of one character, as bytes. -/
def utf8Bytes (c : Char) : List Nat :=
  let n := c.toNat
  if n < 0x80 then [n]
  else if n < 0x800 then [0xc0 ||| (n >>> 6), 0x80 ||| (n &&& 0x3f)]
  else if n < 0x10000 then
    [0xe0 ||| (n >>> 12), 0x80 ||| ((n >>> 6) &&& 0x3f), 0x80 ||| (n &&& 0x3f)]
  else
    [0xf0 ||| (n >>> 18), 0x80 ||| ((n >>> 12) &&& 0x3f),
     0x80 ||| ((n >>> 6) &&& 0x3f), 0x80 ||| (n &&& 0x3f)]

/-- UTF-8 bytes of a string (what Node hashes when `update` is given a
string). -/
def strBytes (s : String) : List Nat := s.data.flatMap utf8Bytes

/-- Lower-case hex digit. -/
def hexDigitChar (n : Nat) : Char :=
  if n < 10 then Char.ofNat (48 + n) else Char.ofNat (87 + n)

/-- Lower-case hex rendering of a byte list (model of `.digest('hex')`). -/
def bytesToHex (bs : List Nat) : String :=
  String.mk (bs.flatMap fun b => [hexDigitChar ((b / 16) % 16), hexDigitChar (b % 16)])

example : bytesToHex (sha256 []) =
    "e3b0c44298fc1c149afbf4c8996fb92427ae41e4649b934ca495991b7852b855" := by
  decide

example : bytesToHex (sha256 (strBytes "abc")) =
    "ba7816bf8f01cfea414140de5dae2223b00361a396177a9cb410ff61f20015ad" := by
  decide

/-! ## URLSearchParams (model of `new URLSearchParams(initData)`)

`verifyTelegramData` feeds the init-data string to `URLSearchParams`:
segments are split on `&` (empty segments dropped, one leading `?` stripped),
each segment is split at its first `=`, and keys and values are
form-decoded (`+` becomes a space, `%XX` becomes the byte `XX`; malformed
escapes are kept literally).  Percent-escapes are decoded to code points
here (faithful for the ASCII inputs this development evaluates). -/

/-- Value of a hex digit character. -/
def hexVal (c : Char) : Option Nat :=
  if 48 ≤ c.toNat ∧ c.toNat ≤ 57 then some (c.toNat - 48)
  else if 97 ≤ c.toNat ∧ c.toNat ≤ 102 then some (c.toNat - 87)
  else if 65 ≤ c.toNat ∧ c.toNat ≤ 70 then some (c.toNat - 55)
  else none

/-- application/x-www-form-urlencoded decoding of a character list. -/
def formDecodeChars : List Char → List Char
  | [] => []
  | '+' :: rest => ' ' :: formDecodeChars rest
  | '%' :: c1 :: c2 :: rest =>
      match hexVal c1, hexVal c2 with
      | some hi, some lo => Char.ofNat (16 * hi + lo) :: formDecodeChars rest
      | _, _ => '%' :: formDecodeChars (c1 :: c2 :: rest)
  | c :: rest => c :: formDecodeChars rest

def formDecode (s : String) : String := String.mk (formDecodeChars s.data)

/-- Split a character list on a separator character (like `String.splitOn`
with a one-character separator). -/
def splitOnChar (sep : Char) : List Char → List (List Char)
  | [] => [[]]
  | c :: rest =>
      let r := splitOnChar sep rest
      if c = sep then [] :: r
      else
        match r with
        | [] => [[c]]
        | g :: gs => (c :: g) :: gs

/-- Split a query segment at its first `=` (no `=`: the value is empty). -/
def splitFirstEq : List Char → List Char × List Char
  | [] => ([], [])
  | '=' :: rest => ([], rest)
  | c :: rest =>
      let p := splitFirstEq rest
      (c :: p.1, p.2)

/-- Parse a query string into decoded key/value pairs in insertion order. -/
def parseQuery (s : String) : List (String × String) :=
  let cs :=
    match s.data with
    | '?' :: rest => rest
    | l => l
  ((splitOnChar '&' cs).filter (· != [])).map fun seg =>
    let p := splitFirstEq seg
    (String.mk (formDecodeChars p.1), String.mk (formDecodeChars p.2))

/-- Model of `params.get(k)`: the value of the first pair with key `k` (JS `null` is
`none`). -/
def getParam (ps : List (String × String)) (k : String) : Option String :=
  (ps.find? fun p => p.1 == k).map (·.2)

/-- Model of `params.delete(k)`: remove every pair with key `k`. -/
def deleteParam (ps : List (String × String)) (k : String) : List (String × String) :=
  ps.filter fun p => p.1 != k

/-! ## Sorting the data-check pairs

`verifyTelegramData` sorts the entries with the stable `Array.prototype.sort`
under the comparator `([a], [b]) => a.localeCompare(b)`; for the ASCII keys of
Telegram init data this collation agrees with code-point order, which is what
the model uses.  Stable insertion sort: a new element goes before the first
strictly greater key and after equal keys seen so far. -/

/-- Lexicographic (code-point) less-or-equal on character lists: the order the
comparator `a.localeCompare(b)` induces on the ASCII keys of init data. -/
def charListLe : List Char → List Char → Bool
  | [], _ => true
  | _ :: _, [] => false
  | a :: as, b :: bs =>
      if a.toNat < b.toNat then true
      else if b.toNat < a.toNat then false
      else charListLe as bs

/-- Key comparison used by the sort. -/
def keyLe (a b : String) : Bool := charListLe a.data b.data

/-- Stable insertion of a pair into a key-sorted list. -/
def insertPair (x : String × String) : List (String × String) → List (String × String)
  | [] => [x]
  | y :: ys => if keyLe x.1 y.1 then x :: y :: ys else y :: insertPair x ys

/-- Stable sort of the pairs by key. -/
def sortPairs : List (String × String) → List (String × String)
  | [] => []
  | x :: xs => insertPair x (sortPairs xs)

/-- The data-check string: sorted `key=value` lines joined by newlines. -/
def dataCheckString (ps : List (String × String)) : String :=
  String.intercalate "\n" ((sortPairs ps).map fun p => p.1 ++ "=" ++ p.2)

/-- The secret key: HMAC-SHA256 keyed with the literal `WebAppData` over the
bot token. -/
def secretKeyOf (token : String) : List Nat :=
  hmacSha256 (strBytes "WebAppData") (strBytes token)

/-- The hex signature the code computes for an init-data string: HMAC-SHA256
of the data-check string (hash entries removed) under the derived secret
key. -/
def calculatedHash (token initData : String) : String :=
  bytesToHex (hmacSha256 (secretKeyOf token)
    (strBytes (dataCheckString (deleteParam (parseQuery initData) "hash"))))

example : calculatedHash "TOKEN" "auth_date=1&hash=x" =
    "888b89c089808e016c34dc782ef17d2853f4a8190a83917c79fd264e468021df" := by
  decide

/-! ## JSON values (model of `JSON.parse`)

`verifyTelegramData` reads the user with `JSON.parse(data.get('user'))`.
Numbers keep their lexeme (the code never computes with them), later duplicate
object keys win as in JavaScript, and invalid input is a parse failure (the
JavaScript exception, caught by the surrounding try/catch). -/

mutual

inductive Json where
  | null
  | bool (b : Bool)
  | num (lit : String)
  | str (s : String)
  | arr (elems : JsonArray)
  | obj (fields : JsonObject)
deriving DecidableEq

inductive JsonArray where
  | nil
  | cons (head : Json) (tail : JsonArray)
deriving DecidableEq

inductive JsonObject where
  | nil
  | cons (key : String) (val : Json) (tail : JsonObject)
deriving DecidableEq

end

/-- Look a key up in an object, later duplicates winning (as in the object
`JSON.parse` builds, where a repeated key overwrites the earlier one). -/
def JsonObject.getLast : JsonObject → String → Option Json
  | .nil, _ => none
  | .cons k v rest, key =>
      match JsonObject.getLast rest key with
      | some r => some r
      | none => if k == key then some v else none

/-- JavaScript property access on a parsed JSON value: objects look fields up
(last duplicate wins), other non-null values give `undefined` (`none`); access
on `null` is the caller's `TypeError`, handled where it occurs. -/
def Json.getField : Json → String → Option Json
  | .obj fields, k => fields.getLast k
  | _, _ => none

/-- Escape character after a backslash in a JSON string. -/
def escChar (c : Char) : Option Char :=
  if c = '"' then some '"'
  else if c = '\\' then some '\\'
  else if c = '/' then some '/'
  else if c = 'b' then some (Char.ofNat 8)
  else if c = 'f' then some (Char.ofNat 12)
  else if c = 'n' then some '\n'
  else if c = 'r' then some '\r'
  else if c = 't' then some '\t'
  else none

/-- Parse the body of a JSON string after the opening quote: the content and
the remaining input. -/
def parseJStr : List Char → Option (List Char × List Char)
  | '"' :: rest => some ([], rest)
  | '\\' :: 'u' :: a :: b :: c :: d :: rest =>
      match hexVal a, hexVal b, hexVal c, hexVal d with
      | some ha, some hb, some hc, some hd =>
          (parseJStr rest).map fun p =>
            (Char.ofNat (((ha * 16 + hb) * 16 + hc) * 16 + hd) :: p.1, p.2)
      | _, _, _, _ => none
  | '\\' :: e :: rest =>
      match escChar e with
      | some c => (parseJStr rest).map fun p => (c :: p.1, p.2)
      | none => none
  | c :: rest =>
      if c.toNat < 32 then none
      else (parseJStr rest).map fun p => (c :: p.1, p.2)
  | [] => none

/-- Characters that can occur in a number lexeme. -/
def numChar (c : Char) : Bool :=
  c.isDigit || c = '-' || c = '+' || c = '.' || c = 'e' || c = 'E'

/-- Validate the exponent part of a number lexeme (which must end there). -/
def validExp : List Char → Bool
  | [] => true
  | c :: rest =>
      if c = 'e' ∨ c = 'E' then
        let rest2 :=
          match rest with
          | s :: r => if s = '+' ∨ s = '-' then r else s :: r
          | [] => []
        match rest2.takeWhile Char.isDigit, rest2.dropWhile Char.isDigit with
        | [], _ => false
        | _, [] => true
        | _, _ => false
      else false

/-- Validate the fraction-and-exponent part of a number lexeme. -/
def validFrac : List Char → Bool
  | '.' :: rest =>
      match rest.takeWhile Char.isDigit with
      | [] => false
      | _ => validExp (rest.dropWhile Char.isDigit)
  | l => validExp l

/-- Validate an unsigned number lexeme (no leading zeros). -/
def validNumCore : List Char → Bool
  | '0' :: rest => validFrac rest
  | c :: rest => if c.isDigit then validFrac (rest.dropWhile Char.isDigit) else false
  | [] => false

/-- Validate a number lexeme. -/
def validNum : List Char → Bool
  | '-' :: rest => validNumCore rest
  | l => validNumCore l

/-- Skip JSON whitespace. -/
def skipWs : List Char → List Char
  | c :: rest =>
      if c = ' ' ∨ c = '\t' ∨ c = '\n' ∨ c = '\r' then skipWs rest else c :: rest
  | [] => []

/-- Parse a number at the head of the input. -/
def parseNumber (cs : List Char) : Option (Json × List Char) :=
  let lex := cs.takeWhile numChar
  if validNum lex then some (.num (String.mk lex), cs.dropWhile numChar) else none

mutual

/-- Parse one JSON value (fuel-bounded recursive descent). -/
def parseValue : Nat → List Char → Option (Json × List Char)
  | 0, _ => none
  | fuel + 1, cs =>
      match skipWs cs with
      | 'n' :: 'u' :: 'l' :: 'l' :: rest => some (.null, rest)
      | 't' :: 'r' :: 'u' :: 'e' :: rest => some (.bool true, rest)
      | 'f' :: 'a' :: 'l' :: 's' :: 'e' :: rest => some (.bool false, rest)
      | '"' :: rest => (parseJStr rest).map fun p => (.str (String.mk p.1), p.2)
      | '[' :: rest => parseArrayBody fuel (skipWs rest)
      | '\x7b' :: rest => parseObjectBody fuel (skipWs rest)
      | rest => parseNumber rest

/-- Parse the inside of an array after `[` and leading whitespace. -/
def parseArrayBody : Nat → List Char → Option (Json × List Char)
  | 0, _ => none
  | fuel + 1, cs =>
      match cs with
      | ']' :: rest => some (.arr .nil, rest)
      | _ => (parseItems fuel cs).map fun p => (.arr p.1, p.2)

/-- Parse one or more comma-separated array items up to `]`. -/
def parseItems : Nat → List Char → Option (JsonArray × List Char)
  | 0, _ => none
  | fuel + 1, cs => do
      let (v, r) ← parseValue fuel cs
      match skipWs r with
      | ',' :: r2 => (parseItems fuel r2).map fun p => (.cons v p.1, p.2)
      | ']' :: r2 => some (.cons v .nil, r2)
      | _ => none

/-- Parse the inside of an object after the opening brace and whitespace. -/
def parseObjectBody : Nat → List Char → Option (Json × List Char)
  | 0, _ => none
  | fuel + 1, cs =>
      match cs with
      | '\x7d' :: rest => some (.obj .nil, rest)
      | _ => (parseMembers fuel cs).map fun p => (.obj p.1, p.2)

/-- Parse one or more `"key": value` members up to the closing brace. -/
def parseMembers : Nat → List Char → Option (JsonObject × List Char)
  | 0, _ => none
  | fuel + 1, cs => do
      let (k, r1) ←
        match skipWs cs with
        | '"' :: rest => parseJStr rest
        | _ => none
      let r2 ←
        match skipWs r1 with
        | ':' :: rest => some rest
        | _ => none
      let (v, r3) ← parseValue fuel r2
      match skipWs r3 with
      | ',' :: r4 => (parseMembers fuel r4).map fun p => (.cons (String.mk k) v p.1, p.2)
      | '\x7d' :: r4 => some (.cons (String.mk k) v .nil, r4)
      | _ => none

end

/-- Model of `JSON.parse`: parse a complete JSON document (only trailing whitespace may
remain). -/
def Json.parse (s : String) : Option Json :=
  match parseValue (s.length + 8) s.data with
  | some (j, rest) => if skipWs rest = [] then some j else none
  | none => none

example : Json.parse "\x7b\"id\":7\x7d" = some (.obj (.cons "id" (.num "7") .nil)) := by decide

example : Json.parse "x" = none := by decide

example : Json.parse " null " = some .null := by decide

/-! ## `verifyTelegramData` (`src/src/services/telegramBot.js`, lines 318-356)

The body of the function runs inside a try/catch; any thrown error (a hash
mismatch or a `JSON.parse` / property-access failure) is caught and turned
into `{ user: null }`.  The throwing body is embedded as an `Except`
computation and the catch as a total wrapper. -/

/-- The `{ id, username, first_name, last_name }` object the function builds;
`none` stands for the JavaScript `null`/`undefined` field values. -/
structure VerifiedUser where
  id : Option Json
  username : Option Json
  first_name : Option Json
  last_name : Option Json
deriving DecidableEq

/-- The `{ user }` return value; `none` is the JavaScript `null`. -/
structure VerifyResult where
  user : Option VerifiedUser
deriving DecidableEq

/-- Build the user object from the `user` parameter: a missing or empty
parameter is falsy, so every field is the literal `null`; otherwise each field
is a property of `JSON.parse(user)`, whose failure (and the `TypeError` of
property access on a parsed `null`) is the thrown error. -/
def extractUserField (userParam : Option String) : Except String VerifiedUser :=
  match userParam with
  | none => .ok ⟨none, none, none, none⟩
  | some s =>
      if s = "" then .ok ⟨none, none, none, none⟩
      else
        match Json.parse s with
        | none => .error "Unexpected token in JSON"
        | some .null => .error "TypeError: cannot read properties of null"
        | some j =>
            .ok ⟨j.getField "id", j.getField "username",
                 j.getField "first_name", j.getField "last_name"⟩

/-- The throwing body of `verifyTelegramData`: parse the init data, read and
delete `hash`, recompute the signature over the sorted data-check string, throw
on mismatch, then assemble the user. -/
def verifyInner (token initData : String) : Except String VerifyResult :=
  let data := parseQuery initData
  let hash := getParam data "hash"
  let data2 := deleteParam data "hash"
  let calcHash := bytesToHex (hmacSha256 (secretKeyOf token)
    (strBytes (dataCheckString data2)))
  if hash ≠ some calcHash then .error "Invalid hash"
  else (extractUserField (getParam data2 "user")).map fun u => ⟨some u⟩

/-- The function `verifyTelegramData`: the body with its catch-all, returning
`{ user: null }` on any thrown error. -/
def verifyTelegramData (token initData : String) : VerifyResult :=
  match verifyInner token initData with
  | .ok r => r
  | .error _ => ⟨none⟩

/-- The bot token used by the concrete evaluations below (the code reads it
from `process.env.TELEGRAM_BOT_TOKEN`; the theorems quantify over it). -/
def tok0 : String := "TOKEN"

example :
    verifyTelegramData tok0
      "auth_date=2&hash=82ba6f357e33f2a27ce3e36d2d4426446c79f197cb8f1a9a674547843935ad6c&user=%7B%22id%22%3A7%7D"
      = ⟨some ⟨some (.num "7"), none, none, none⟩⟩ := by decide

example :
    verifyTelegramData tok0 "auth_date=1&hash=deadbeef" = ⟨none⟩ := by decide

/-! ## Order properties of the key comparison (for the canonical-scheme claim) -/

theorem charListLe_total (a b : List Char) :
    charListLe a b = true ∨ charListLe b a = true := by
  induction a generalizing b with
  | nil => exact Or.inl rfl
  | cons x xs ih =>
      cases b with
      | nil => exact Or.inr rfl
      | cons y ys =>
          simp only [charListLe]
          rcases Nat.lt_trichotomy x.toNat y.toNat with h | h | h
          · left
            rw [if_pos h]
          · rcases ih ys with hh | hh
            · left
              rw [if_neg (by omega), if_neg (by omega)]
              exact hh
            · right
              rw [if_neg (by omega), if_neg (by omega)]
              exact hh
          · right
            rw [if_pos h]

theorem charListLe_trans {a b c : List Char} (h1 : charListLe a b = true)
    (h2 : charListLe b c = true) : charListLe a c = true := by
  induction a generalizing b c with
  | nil => rfl
  | cons x xs ih =>
      cases b with
      | nil => exact absurd h1 (by simp [charListLe])
      | cons y ys =>
          cases c with
          | nil => exact absurd h2 (by simp [charListLe])
          | cons z zs =>
              simp only [charListLe] at h1 h2 ⊢
              rcases Nat.lt_trichotomy x.toNat y.toNat with hxy | hxy | hxy
              · rcases Nat.lt_trichotomy y.toNat z.toNat with hyz | hyz | hyz
                · rw [if_pos (by omega)]
                · rw [if_pos (by omega)]
                · rw [if_neg (by omega), if_pos (by omega)] at h2
                  exact absurd h2 (by simp)
              · rcases Nat.lt_trichotomy y.toNat z.toNat with hyz | hyz | hyz
                · rw [if_pos (by omega)]
                · rw [if_neg (by omega), if_neg (by omega)] at h1 h2 ⊢
                  exact ih h1 h2
                · rw [if_neg (by omega), if_pos (by omega)] at h2
                  exact absurd h2 (by simp)
              · rw [if_neg (by omega), if_pos (by omega)] at h1
                exact absurd h1 (by simp)

theorem insertPair_perm (x : String × String) (l : List (String × String)) :
    (insertPair x l).Perm (x :: l) := by
  induction l with
  | nil => exact List.Perm.refl _
  | cons y ys ih =>
      by_cases h : keyLe x.1 y.1 = true
      · simp [insertPair, h]
      · simp only [insertPair, if_neg h]
        exact (ih.cons y).trans (List.Perm.swap x y ys)

theorem insertPair_sorted (x : String × String) (l : List (String × String))
    (h : l.Sorted fun p q => keyLe p.1 q.1 = true) :
    (insertPair x l).Sorted fun p q => keyLe p.1 q.1 = true := by
  induction l with
  | nil => simp [insertPair]
  | cons y ys ih =>
      rw [List.sorted_cons] at h
      obtain ⟨hy, hys⟩ := h
      by_cases hk : keyLe x.1 y.1 = true
      · simp only [insertPair, if_pos hk]
        rw [List.sorted_cons]
        refine ⟨?_, List.sorted_cons.mpr ⟨hy, hys⟩⟩
        intro b hb
        rcases List.mem_cons.mp hb with rfl | hb2
        · exact hk
        · exact charListLe_trans hk (hy b hb2)
      · simp only [insertPair, if_neg hk]
        rw [List.sorted_cons]
        refine ⟨?_, ih hys⟩
        intro b hb
        have hmem : b = x ∨ b ∈ ys := by
          simpa using (insertPair_perm x ys).mem_iff.mp hb
        rcases hmem with rfl | hb2
        · rcases charListLe_total b.1.data y.1.data with ht | ht
          · exact absurd ht hk
          · exact ht
        · exact hy b hb2

theorem sortPairs_perm (l : List (String × String)) : (sortPairs l).Perm l := by
  induction l with
  | nil => exact List.Perm.refl _
  | cons x xs ih => exact (insertPair_perm x (sortPairs xs)).trans (ih.cons x)

theorem sortPairs_sorted (l : List (String × String)) :
    (sortPairs l).Sorted fun p q => keyLe p.1 q.1 = true := by
  induction l with
  | nil => simp [sortPairs]
  | cons x xs ih => exact insertPair_sorted x (sortPairs xs) ih

/-! ## `telegramAuth` middleware (`src/src/index.js`, lines 34-95)

The middleware reads the `x-telegram-init-data` header, verifies it, looks the
user up in the Supabase `users` table by `telegram_id`, inserts a fresh row
with `balance: 0, level: 'Alpha Pup', level_points: 0` when none exists, and
proceeds with the (existing or fresh) row id.  The table is modelled as a list
of rows and the fresh row's generated id as the `nextId` argument; JWT signing
carries no decidable content and is omitted. -/

/-- A row of the Supabase `users` table (the columns the middleware touches). -/
structure SupabaseUser where
  id : Nat
  telegram_id : Option Json
  username : Option Json
  first_name : Option Json
  last_name : Option Json
  balance : Int
  level : String
  level_points : Int
deriving DecidableEq

/-- What the middleware does with the request: respond itself with an error
status, or call `next` with `req.user` set. -/
inductive AuthOutcome where
  | reject (status : Nat) (error : String)
  | proceed (userId : Nat) (telegramId : Option Json)
deriving DecidableEq

/-- The middleware, returning its outcome and the (possibly extended) users
table. -/
def telegramAuth (token : String) (header : Option String)
    (db : List SupabaseUser) (nextId : Nat) : AuthOutcome × List SupabaseUser :=
  match header with
  | none => (.reject 401 "No Telegram data provided", db)
  | some initData =>
      match (verifyTelegramData token initData).user with
      | none => (.reject 401 "Invalid Telegram data", db)
      | some u =>
          match db.find? fun r => r.telegram_id == u.id with
          | some existing => (.proceed existing.id u.id, db)
          | none =>
              (.proceed nextId u.id,
               db ++ [{ id := nextId, telegram_id := u.id, username := u.username,
                        first_name := u.first_name, last_name := u.last_name,
                        balance := 0, level := "Alpha Pup", level_points := 0 }])

/-! ## `UserLevel` and the progress router (`src/unnamed/part_001`, lines 8-69)

The progress router reads and writes `UserLevel` documents and calls the model
methods `addExperience` and `updateStreak` and the notifier
`telegramService.handleLevelUp`.  The `UserLevel` model file is not among the
sources, so its state and methods are modelled from the spec (see the doc
comments); the router logic itself (lookup, create-on-first-use, the
`oldLevel`-comparison guard around the single `handleLevelUp` call, and the
per-route try/catch) is embedded from the source.  Database and notifier
failures are injected as `Except` arguments to model thrown errors. -/

/-- Modelled from the spec: a `UserLevel` document.  The spec names its fields
(experience, streak, achievements array, and the level / last-active state the
threshold and streak logic needs); days are counted as integers. -/
structure UserLevelRec where
  userId : Nat
  experience : Nat
  level : Nat
  streak : Nat
  lastActive : Nat
  achievements : List Nat
deriving DecidableEq

/-- Modelled from the spec: a freshly constructed `new UserLevel({ userId })`
with schema defaults — no experience, level 1, no streak, nothing unlocked. -/
def newUserLevel (uid : Nat) : UserLevelRec :=
  { userId := uid, experience := 0, level := 1, streak := 0,
    lastActive := 0, achievements := [] }

/-- Modelled from the spec: the experience threshold scheme ("simple
arithmetic/threshold updates"): one level per 100 experience points. -/
def levelForExperience (e : Nat) : Nat := e / 100 + 1

/-- Modelled from the spec: `userLevel.addExperience(amount)` adds the amount
and recomputes the level from the thresholds. -/
def addExperience (ul : UserLevelRec) (amount : Nat) : UserLevelRec :=
  { ul with experience := ul.experience + amount,
            level := levelForExperience (ul.experience + amount) }

/-- Modelled from the spec: `userLevel.updateStreak()` — "streak
increment/reset on consecutive vs. skipped days": a day consecutive to the
last active day increments the streak, the same day leaves it unchanged, and
anything else (one or more skipped days) resets it to 1. -/
def updateStreak (ul : UserLevelRec) (today : Nat) : UserLevelRec :=
  if today = ul.lastActive + 1 then
    { ul with streak := ul.streak + 1, lastActive := today }
  else if today = ul.lastActive then ul
  else { ul with streak := 1, lastActive := today }

/-- Response of a progress route: HTTP status, the JSON error message if any,
the record sent back if any, and the records persisted by the handler. -/
structure RouteResult where
  status : Nat
  message : Option String
  returned : Option UserLevelRec
  writes : List UserLevelRec
deriving DecidableEq

/-- GET /progress: find the record, create and save one when missing, return
it; any thrown error becomes a 500 with a message. -/
def getProgressRoute (find : Except String (Option UserLevelRec))
    (save : Except String Unit) (uid : Nat) : RouteResult :=
  match find with
  | .error _ => { status := 500, message := some "Error fetching progress",
                  returned := none, writes := [] }
  | .ok (some ul) => { status := 200, message := none,
                       returned := some ul, writes := [] }
  | .ok none =>
      match save with
      | .error _ => { status := 500, message := some "Error fetching progress",
                      returned := none, writes := [] }
      | .ok _ => { status := 200, message := none,
                   returned := some (newUserLevel uid),
                   writes := [newUserLevel uid] }

/-- Response of POST /experience, additionally counting the
`telegramService.handleLevelUp` calls the handler makes. -/
structure ExperienceResult where
  status : Nat
  message : Option String
  returned : Option UserLevelRec
  notificationsSent : Nat
deriving DecidableEq

/-- POST /experience: find (or freshly construct) the record, remember
`oldLevel`, apply `addExperience` then `updateStreak`, call `handleLevelUp`
once if and only if the level rose, and return the record; any thrown error
becomes a 500 with a message. -/
def postExperienceRoute (find : Except String (Option UserLevelRec))
    (notify : Except String Unit) (uid amount today : Nat) : ExperienceResult :=
  match find with
  | .error _ => { status := 500, message := some "Error updating experience",
                  returned := none, notificationsSent := 0 }
  | .ok found =>
      let ul0 := found.getD (newUserLevel uid)
      let oldLevel := ul0.level
      let ul := updateStreak (addExperience ul0 amount) today
      if oldLevel < ul.level then
        match notify with
        | .error _ => { status := 500, message := some "Error updating experience",
                        returned := none, notificationsSent := 1 }
        | .ok _ => { status := 200, message := none,
                     returned := some ul, notificationsSent := 1 }
      else
        { status := 200, message := none, returned := some ul,
          notificationsSent := 0 }

/-- POST /sync-telegram: delegate to `telegramService.syncUserProgress`; a 200
with a message on success, a 500 with a message on a thrown error. -/
def syncTelegramRoute (sync : Except String Unit) : RouteResult :=
  match sync with
  | .ok _ => { status := 200, message := some "Progress synced with Telegram",
               returned := none, writes := [] }
  | .error _ => { status := 500, message := some "Error syncing progress",
                  returned := none, writes := [] }

/-- Response of GET /achievements: status, message, and the achievements array
sent back if any. -/
structure AchievementsResult where
  status : Nat
  message : Option String
  achievements : Option (List Nat)
deriving DecidableEq

/-- GET /achievements: a 404 with a message when no record exists, the
achievements array otherwise; any thrown error becomes a 500 with a
message. -/
def achievementsRoute (find : Except String (Option UserLevelRec)) :
    AchievementsResult :=
  match find with
  | .error _ => { status := 500, message := some "Error fetching achievements",
                  achievements := none }
  | .ok none => { status := 404, message := some "User progress not found",
                  achievements := none }
  | .ok (some ul) => { status := 200, message := none,
                       achievements := some ul.achievements }

/-! ## `adService.getAdMetrics` (`src/unnamed/part_000`, lines 74-87) -/

/-- An entry of an ad's `views` or `clicks` log. -/
structure AdLogEntry where
  userId : String
  timestamp : Nat
deriving DecidableEq

/-- The parts of an `Ad` document `getAdMetrics` reads. -/
structure Ad where
  views : List AdLogEntry
  clicks : List AdLogEntry
deriving DecidableEq

/-- The metrics object; `ctr` is a rational, modelling the JavaScript
division (exact on these counts). -/
structure AdMetrics where
  totalViews : Nat
  totalClicks : Nat
  uniqueViewers : Nat
  uniqueClickers : Nat
  ctr : Rat
deriving DecidableEq

/-- The metrics `getAdMetrics` reports: log lengths, distinct-user counts via `new Set(...)`, and
the click-through rate guarded against an empty views log. -/
def getAdMetrics (ad : Ad) : AdMetrics :=
  { totalViews := ad.views.length
    totalClicks := ad.clicks.length
    uniqueViewers := (ad.views.map fun v => v.userId).dedup.length
    uniqueClickers := (ad.clicks.map fun c => c.userId).dedup.length
    ctr := if ad.views.length > 0 then
             ((ad.clicks.length : Rat) / (ad.views.length : Rat)) * 100
           else 0 }

/-! ## Shared helpers for the claim theorems -/

instance instDecEqExcept {ε α : Type} [DecidableEq ε] [DecidableEq α] :
    DecidableEq (Except ε α) := fun x y =>
  match x, y with
  | .ok a, .ok b =>
      match decEq a b with
      | .isTrue h => .isTrue (h ▸ rfl)
      | .isFalse h => .isFalse fun hh => h (by cases hh; rfl)
  | .error a, .error b =>
      match decEq a b with
      | .isTrue h => .isTrue (h ▸ rfl)
      | .isFalse h => .isFalse fun hh => h (by cases hh; rfl)
  | .ok _, .error _ => .isFalse fun hh => by cases hh
  | .error _, .ok _ => .isFalse fun hh => by cases hh

/-- When the supplied hash differs from the recomputed signature, the body
throws and the catch returns `{ user: null }`. -/
theorem verifyTelegramData_mismatch {token initData : String}
    (h : getParam (parseQuery initData) "hash" ≠ some (calculatedHash token initData)) :
    verifyTelegramData token initData = ⟨none⟩ := by
  have hcond : getParam (parseQuery initData) "hash"
      ≠ some (bytesToHex (hmacSha256 (secretKeyOf token)
          (strBytes (dataCheckString (deleteParam (parseQuery initData) "hash"))))) := h
  simp only [verifyTelegramData, verifyInner, if_pos hcond]

/-- When the supplied hash equals the recomputed signature, the function
returns exactly what the user-extraction step produces. -/
theorem verifyTelegramData_match {token initData : String} {u : VerifiedUser}
    (hhash : getParam (parseQuery initData) "hash" = some (calculatedHash token initData))
    (huser : extractUserField (getParam (deleteParam (parseQuery initData) "hash") "user")
      = .ok u) :
    verifyTelegramData token initData = ⟨some u⟩ := by
  have hcond : ¬ getParam (parseQuery initData) "hash"
      ≠ some (bytesToHex (hmacSha256 (secretKeyOf token)
          (strBytes (dataCheckString (deleteParam (parseQuery initData) "hash"))))) := by
    intro hne
    exact hne hhash
  simp only [verifyTelegramData, verifyInner, if_neg hcond, huser, Except.map]

/-! ## Concrete init-data strings for the claim evaluations

Each hash below is the genuine HMAC-SHA256 signature of its data-check string
under `tok0` (the theorems that need a mismatch use a wrong one). -/

/-- Valid signature over `user=x`, whose `user` value is not JSON. -/
def c1BadData : String :=
  "hash=6a6c26dc58ccb837e72f29250ad4f24aa0d624ea2f24a0e42452d2529bdb02fa&user=x"

/-- Valid signature over `auth_date=2` and a percent-encoded JSON user. -/
def c1GoodData : String :=
  "auth_date=2&hash=82ba6f357e33f2a27ce3e36d2d4426446c79f197cb8f1a9a674547843935ad6c&user=%7B%22id%22%3A7%7D"

/-- A hash parameter that cannot match any 64-digit signature. -/
def c2Data : String := "hash=00&user=a"

/-- Valid signature over `auth_date=4`, with no user parameter. -/
def c4GoodData : String :=
  "auth_date=4&hash=67bda59d64b3e783d8e4da7d65ac2fc2b489d0eb039608aea0296f18cb30e259"

/-- Valid signature over `auth_date=1`, with no user parameter. -/
def c6Data : String :=
  "auth_date=1&hash=888b89c089808e016c34dc782ef17d2853f4a8190a83917c79fd264e468021df"

/-- Valid signature over `auth_date=3`, with no user parameter. -/
def c8Data : String :=
  "auth_date=3&hash=82999b618876d05d40601ecd3b89ad9e8200c7206692fc4514502ddd793f1dd0"

/-! ## Claim theorems -/

/-- C1, as stated, is false on the code: this init-data string's hash
parameter equals the recomputed HMAC-SHA256 signature, yet `verifyTelegramData`
does not succeed — its `user=x` value fails `JSON.parse`, the thrown error is
caught, and the function returns `{ user: null }` instead of a user. -/
theorem c1_counterexample :
    getParam (parseQuery c1BadData) "hash" = some (calculatedHash tok0 c1BadData)
    ∧ verifyTelegramData tok0 c1BadData = ⟨none⟩ := by
  constructor
  · decide
  · decide

/-- C1 (amended): for every init-data string whose hash parameter equals the
recomputed HMAC-SHA256 signature and whose `user` parameter extraction
succeeds (the parameter is absent, empty, or parses as JSON other than
`null`), `verifyTelegramData` succeeds and returns exactly the user object
assembled from that field. -/
theorem c1_valid_hash_returns_user (token initData : String) (u : VerifiedUser)
    (hhash : getParam (parseQuery initData) "hash"
      = some (calculatedHash token initData))
    (huser : extractUserField (getParam (deleteParam (parseQuery initData) "hash") "user")
      = .ok u) :
    verifyTelegramData token initData = ⟨some u⟩ :=
  verifyTelegramData_match hhash huser

/-- Witness for C1 (amended) at a concrete signed init-data string carrying
the user `{"id":7}`. -/
theorem c1_valid_hash_returns_user_witness :
    verifyTelegramData tok0 c1GoodData = ⟨some ⟨some (.num "7"), none, none, none⟩⟩ :=
  c1_valid_hash_returns_user tok0 c1GoodData ⟨some (.num "7"), none, none, none⟩
    (by decide) (by decide)

/-- C2: for every init-data string whose hash parameter does not equal the
recomputed HMAC-SHA256 signature (including a missing hash), verification
fails and `verifyTelegramData` returns `{ user: null }`. -/
theorem c2_tampered_fails (token initData : String)
    (h : getParam (parseQuery initData) "hash" ≠ some (calculatedHash token initData)) :
    verifyTelegramData token initData = ⟨none⟩ :=
  verifyTelegramData_mismatch h

/-- Witness for C2 at a concrete tampered init-data string. -/
theorem c2_tampered_fails_witness :
    getParam (parseQuery c2Data) "hash" ≠ some (calculatedHash tok0 c2Data)
    ∧ verifyTelegramData tok0 c2Data = ⟨none⟩ :=
  ⟨by decide, c2_tampered_fails tok0 c2Data (by decide)⟩

/-- C4: the signature `verifyTelegramData` compares against is computed by the
canonical scheme — the non-`hash` pairs are permuted into a list sorted
(code-point) alphabetically by key, joined as `key=value` lines with newlines,
and HMAC-SHA256-hex'd under the secret key HMAC-SHA256('WebAppData', token);
and a successful verification means the supplied hash equalled it. -/
theorem c4_canonical_scheme (token initData : String) :
    (sortPairs (deleteParam (parseQuery initData) "hash")).Perm
        (deleteParam (parseQuery initData) "hash")
    ∧ (sortPairs (deleteParam (parseQuery initData) "hash")).Sorted
        (fun p q => keyLe p.1 q.1 = true)
    ∧ calculatedHash token initData
        = bytesToHex (hmacSha256
            (hmacSha256 (strBytes "WebAppData") (strBytes token))
            (strBytes (String.intercalate "\n"
              ((sortPairs (deleteParam (parseQuery initData) "hash")).map
                fun p => p.1 ++ "=" ++ p.2))))
    ∧ ∀ u, verifyTelegramData token initData = ⟨some u⟩ →
        getParam (parseQuery initData) "hash" = some (calculatedHash token initData) := by
  refine ⟨sortPairs_perm _, sortPairs_sorted _, rfl, ?_⟩
  intro u hu
  by_contra hne
  rw [verifyTelegramData_mismatch hne] at hu
  cases hu

/-- Witness for C4: the sorted data-check list and, at a concretely signed
input accepted by the code, the supplied-hash equality discharged through the
last conjunct. -/
theorem c4_canonical_scheme_witness :
    (sortPairs (deleteParam (parseQuery c4GoodData) "hash")).Sorted
      (fun p q => keyLe p.1 q.1 = true)
    ∧ getParam (parseQuery c4GoodData) "hash" = some (calculatedHash tok0 c4GoodData) :=
  ⟨(c4_canonical_scheme tok0 c4GoodData).2.1,
   (c4_canonical_scheme tok0 c4GoodData).2.2.2 ⟨none, none, none, none⟩ (by decide)⟩

/-- C6: this init-data string has a valid hash and no `user` parameter;
`verifyTelegramData` returns a non-null user object with all four fields null,
and the `telegramAuth` middleware therefore does not reject the request as
invalid Telegram data but proceeds (creating a fresh row). -/
theorem c6_missing_user_accepted :
    (verifyTelegramData tok0 c6Data).user = some ⟨none, none, none, none⟩
    ∧ (telegramAuth tok0 (some c6Data) [] 1).1 = .proceed 1 none := by
  constructor
  · decide
  · decide

/-- C9: `verifyTelegramData` is total — on every init-data string it returns
`{ user: null }` or `{ user: <object> }`, and whenever the throwing body ends
in an error the catch turns it into `{ user: null }`. -/
theorem c9_verify_total (token initData : String) :
    (verifyTelegramData token initData = ⟨none⟩
      ∨ ∃ u, verifyTelegramData token initData = ⟨some u⟩)
    ∧ ∀ e, verifyInner token initData = .error e →
        verifyTelegramData token initData = ⟨none⟩ := by
  constructor
  · match h : verifyTelegramData token initData with
    | ⟨none⟩ => exact Or.inl rfl
    | ⟨some u⟩ => exact Or.inr ⟨u, rfl⟩
  · intro e he
    simp only [verifyTelegramData, he]

/-- Witness for C9 at a concrete malformed input whose body throws. -/
theorem c9_verify_total_witness : verifyTelegramData tok0 "hash=zz" = ⟨none⟩ :=
  (c9_verify_total tok0 "hash=zz").2 "Invalid hash" (by decide)

/-- C3, as stated, is false on the code: a request that crosses two experience
thresholds at once (level 1 to level 3) makes the route call `handleLevelUp`
once, not once per crossed threshold. -/
theorem c3_counterexample :
    (updateStreak (addExperience (newUserLevel 1) 200) 5).level
      - (newUserLevel 1).level = 2
    ∧ (postExperienceRoute (.ok (some (newUserLevel 1))) (.ok ()) 1 200 5).notificationsSent
      = 1 := by
  constructor
  · decide
  · decide

/-- C3 (amended): POST /experience calls `handleLevelUp` exactly once per
request in which the level rose (however many thresholds were crossed), and
not at all when the level did not change. -/
theorem c3_levelup_notification (found : Option UserLevelRec)
    (notify : Except String Unit) (uid amount today : Nat) :
    (postExperienceRoute (.ok found) notify uid amount today).notificationsSent
      = if (found.getD (newUserLevel uid)).level
          < (updateStreak (addExperience (found.getD (newUserLevel uid)) amount) today).level
        then 1 else 0 := by
  simp only [postExperienceRoute]
  by_cases h : (found.getD (newUserLevel uid)).level
      < (updateStreak (addExperience (found.getD (newUserLevel uid)) amount) today).level
  · rw [if_pos h, if_pos h]
    cases notify <;> rfl
  · rw [if_neg h, if_neg h]

/-- C5: in the POST /experience route the returned record is the one
`updateStreak` produced, and `updateStreak` increments the streak when today
is the day after the last active day and resets it to 1 after one or more
skipped days. -/
theorem c5_streak_update (ul : UserLevelRec) (uid amount today : Nat) :
    (postExperienceRoute (.ok (some ul)) (.ok ()) uid amount today).returned
      = some (updateStreak (addExperience ul amount) today)
    ∧ (today = ul.lastActive + 1 →
        (updateStreak (addExperience ul amount) today).streak = ul.streak + 1)
    ∧ (ul.lastActive + 1 < today →
        (updateStreak (addExperience ul amount) today).streak = 1) := by
  refine ⟨?_, ?_, ?_⟩
  · simp only [postExperienceRoute]
    by_cases h : ul.level < (updateStreak (addExperience ul amount) today).level
    · rw [if_pos ?_]
      · rfl
      · exact h
    · rw [if_neg ?_]
      · rfl
      · exact h
  · intro h
    simp only [updateStreak, addExperience]
    rw [if_pos h]
  · intro h
    simp only [updateStreak, addExperience]
    rw [if_neg (by omega), if_neg (by omega)]

/-- A record last active on day 9, for the consecutive-day case. -/
def ulA : UserLevelRec :=
  { userId := 2, experience := 50, level := 1, streak := 3, lastActive := 9,
    achievements := [] }

/-- A record last active on day 9, for the skipped-day case. -/
def ulB : UserLevelRec :=
  { userId := 3, experience := 0, level := 1, streak := 4, lastActive := 9,
    achievements := [] }

/-- Witness for C5: a consecutive day increments the streak (3 to 4), a
skipped day resets it to 1. -/
theorem c5_streak_update_witness :
    (updateStreak (addExperience ulA 10) 10).streak = ulA.streak + 1
    ∧ (updateStreak (addExperience ulB 10) 12).streak = 1 :=
  ⟨(c5_streak_update ulA 2 10 10).2.1 rfl,
   (c5_streak_update ulB 3 10 12).2.2 (by decide)⟩

/-- C7: every progress route catches a thrown error and answers it with a 500
and a JSON message (and GET /achievements answers missing progress with a
404 and a message); across all outcomes the statuses are only 200, 404 (for
achievements) and 500. -/
theorem c7_routes_catch_errors (e : String) (uid amount today : Nat)
    (find : Except String (Option UserLevelRec)) (save notify sync : Except String Unit) :
    (getProgressRoute (.error e) save uid).status = 500
    ∧ (getProgressRoute (.error e) save uid).message.isSome = true
    ∧ (getProgressRoute (.ok none) (.error e) uid).status = 500
    ∧ (postExperienceRoute (.error e) notify uid amount today).status = 500
    ∧ (postExperienceRoute (.error e) notify uid amount today).message.isSome = true
    ∧ (syncTelegramRoute (.error e)).status = 500
    ∧ (syncTelegramRoute (.error e)).message.isSome = true
    ∧ (achievementsRoute (.error e)).status = 500
    ∧ (achievementsRoute (.error e)).message.isSome = true
    ∧ (achievementsRoute (.ok none)).status = 404
    ∧ (achievementsRoute (.ok none)).message.isSome = true
    ∧ ((getProgressRoute find save uid).status = 200
        ∨ (getProgressRoute find save uid).status = 500)
    ∧ ((postExperienceRoute find notify uid amount today).status = 200
        ∨ (postExperienceRoute find notify uid amount today).status = 500)
    ∧ ((syncTelegramRoute sync).status = 200 ∨ (syncTelegramRoute sync).status = 500)
    ∧ ((achievementsRoute find).status = 200 ∨ (achievementsRoute find).status = 404
        ∨ (achievementsRoute find).status = 500) := by
  refine ⟨rfl, rfl, rfl, rfl, rfl, rfl, rfl, rfl, rfl, rfl, rfl, ?_, ?_, ?_, ?_⟩
  · cases find with
    | error _ => exact Or.inr rfl
    | ok o =>
        cases o with
        | none =>
            cases save with
            | error _ => exact Or.inr rfl
            | ok _ => exact Or.inl rfl
        | some _ => exact Or.inl rfl
  · cases find with
    | error _ => exact Or.inr rfl
    | ok o =>
        simp only [postExperienceRoute]
        by_cases h : (o.getD (newUserLevel uid)).level
            < (updateStreak (addExperience (o.getD (newUserLevel uid)) amount) today).level
        · rw [if_pos h]
          cases notify with
          | error _ => exact Or.inr rfl
          | ok _ => exact Or.inl rfl
        · rw [if_neg h]
          exact Or.inl rfl
  · cases sync with
    | error _ => exact Or.inr rfl
    | ok _ => exact Or.inl rfl
  · cases find with
    | error _ => exact Or.inr (Or.inr rfl)
    | ok o =>
        cases o with
        | none => exact Or.inr (Or.inl rfl)
        | some _ => exact Or.inl rfl

/-- C8: records are created on first use — GET /progress with no stored
record saves and returns a fresh default `UserLevel`, and `telegramAuth` with
no matching `telegram_id` row inserts a user row with balance 0, level
'Alpha Pup' and level_points 0 and proceeds with its id. -/
theorem c8_create_on_first_use :
    (∀ uid : Nat,
      getProgressRoute (.ok none) (.ok ()) uid
        = { status := 200, message := none, returned := some (newUserLevel uid),
            writes := [newUserLevel uid] }
      ∧ (newUserLevel uid).experience = 0 ∧ (newUserLevel uid).streak = 0
      ∧ (newUserLevel uid).achievements = [])
    ∧ ∀ (token initData : String) (db : List SupabaseUser) (nextId : Nat)
        (u : VerifiedUser),
        (verifyTelegramData token initData).user = some u →
        (db.find? fun r => r.telegram_id == u.id) = none →
        telegramAuth token (some initData) db nextId
          = (.proceed nextId u.id,
             db ++ [{ id := nextId, telegram_id := u.id, username := u.username,
                      first_name := u.first_name, last_name := u.last_name,
                      balance := 0, level := "Alpha Pup", level_points := 0 }]) := by
  refine ⟨fun uid => ⟨rfl, rfl, rfl, rfl⟩, ?_⟩
  intro token initData db nextId u hv hf
  simp only [telegramAuth, hv, hf]

/-- Witness for C8: the fresh progress record at user 5, and the middleware
inserting the default row for a concretely signed request over an empty
table. -/
theorem c8_create_on_first_use_witness :
    getProgressRoute (.ok none) (.ok ()) 5
      = { status := 200, message := none, returned := some (newUserLevel 5),
          writes := [newUserLevel 5] }
    ∧ telegramAuth tok0 (some c8Data) [] 1
      = (.proceed 1 none,
         [{ id := 1, telegram_id := none, username := none, first_name := none,
            last_name := none, balance := 0, level := "Alpha Pup",
            level_points := 0 }]) :=
  ⟨(c8_create_on_first_use.1 5).1,
   c8_create_on_first_use.2 tok0 c8Data [] 1 ⟨none, none, none, none⟩ (by decide) rfl⟩

/-- C10: `getAdMetrics` never divides by zero — the reported ctr is 0 on an
empty views log and (clicks / views) * 100 otherwise — and the totals and
unique counts are the log lengths and distinct-user counts. -/
theorem c10_ad_metrics (ad : Ad) :
    (ad.views = [] → (getAdMetrics ad).ctr = 0)
    ∧ (ad.views ≠ [] →
        (getAdMetrics ad).ctr
          = ((ad.clicks.length : Rat) / (ad.views.length : Rat)) * 100)
    ∧ (getAdMetrics ad).totalViews = ad.views.length
    ∧ (getAdMetrics ad).totalClicks = ad.clicks.length
    ∧ (getAdMetrics ad).uniqueViewers = (ad.views.map fun v => v.userId).toFinset.card
    ∧ (getAdMetrics ad).uniqueClickers = (ad.clicks.map fun c => c.userId).toFinset.card := by
  refine ⟨?_, ?_, rfl, rfl, ?_, ?_⟩
  · intro h
    simp [getAdMetrics, h]
  · intro h
    have hl : 0 < ad.views.length := List.length_pos.mpr h
    simp [getAdMetrics, hl]
  · simp [getAdMetrics, List.card_toFinset]
  · simp [getAdMetrics, List.card_toFinset]

/-- An ad with two views and one click. -/
def ad0 : Ad := { views := [⟨"u1", 0⟩, ⟨"u2", 1⟩], clicks := [⟨"u1", 2⟩] }

/-- Witness for C10: on a log of two views and one click the ctr is 50. -/
theorem c10_ad_metrics_witness : (getAdMetrics ad0).ctr = 50 := by
  have h : ad0.views ≠ [] := by decide
  have := (c10_ad_metrics ad0).2.1 h
  rw [this]
  norm_num [ad0]
